import Mathlib

/-
Verification of the Biomni workflow-synthesis engine against its
natural-language specification.

The Python sources under biomni/workflow/ are shallowly embedded:
Python strings are modelled as Lean `String`/`List Char`, Python lists as
`List`, dicts as association lists, sets as deduplicating lists, and the
file system and external engines (the Python parser, the regex engine,
the SHA-256 implementation, the LLM client, the subprocess validator)
as explicit parameters.  All definitions are executable.
-/

namespace Biomni

/- ---------------------------------------------------------------
   Generic character/string helpers (Python string semantics on
   `List Char`; Lean's builtin `String` functions are avoided because
   they do not reduce well in the kernel).
   --------------------------------------------------------------- -/

/-- Lower-cased character list of a Python string (`str.lower`, ASCII part). -/
def lowerChars (s : String) : List Char :=
  s.data.map Char.toLower

/-- Python `not s.strip()`: true iff the string is empty or all whitespace. -/
def isBlankStr (s : String) : Bool :=
  s.data.all Char.isWhitespace

/-- Does `needle` occur in `hay` starting at index `i`? -/
def subAt (needle hay : List Char) (i : Nat) : Bool :=
  needle.isPrefixOf (hay.drop i)

/-- Python `needle in hay` (substring containment). -/
def containsSub (needle hay : List Char) : Bool :=
  (List.range (hay.length + 1)).any (subAt needle hay)

/-- Python regex word character `\w` (ASCII fragment: letters, digits, underscore). -/
def isWordChar (c : Char) : Bool :=
  c.isAlpha || c.isDigit || c == '_'

/-- Occurrence of `needle` at index `i` of `hay` with `\b` boundaries on both
sides, i.e. the regex `\b<needle>\b` matches at `i` (for needles made of
word characters). -/
def wbAt (needle hay : List Char) (i : Nat) : Bool :=
  needle.isPrefixOf (hay.drop i)
    && (i == 0 || !isWordChar ((hay.drop (i - 1)).headD ' '))
    && !isWordChar ((hay.drop (i + needle.length)).headD ' ')

/-- Python `re.search(r'\b' + re.escape(needle) + r'\b', hay) is not None`. -/
def wbMatch (needle hay : List Char) : Bool :=
  (List.range (hay.length + 1)).any (wbAt needle hay)

/- ---------------------------------------------------------------
   Data model: one recorded code block
   (biomni/workflow/tracker.py, execution_entry dict).
   --------------------------------------------------------------- -/

/-- ExecutionEntry: one recorded code block, as built by
`WorkflowTracker.track_execution` (tracker.py lines 72-80). -/
structure ExecEntry where
  code : String
  result : String
  success : Bool
  timestamp : String
  error_type : Option String
  input_files : List String
  output_files : List String
deriving DecidableEq, Repr, Inhabited

/- ---------------------------------------------------------------
   CodeFilter (biomni/workflow/utils/code_filter.py)
   --------------------------------------------------------------- -/

/-- `CodeFilter.DATA_PROCESSING_KEYWORDS` (code_filter.py lines 16-30). -/
def DATA_PROCESSING_KEYWORDS : List String :=
  ["read_csv", "read_excel", "read_json", "read_parquet", "read_table",
   "to_csv", "to_excel", "to_json", "to_parquet",
   "gsea", "prerank", "enrichment", "pathway", "gseaplot", "enrichr", "fgsea",
   "ttest", "anova", "correlation", "regression", "differential",
   "load", "read", "process", "transform", "clean",
   "filter", "merge", "join", "aggregate", "groupby", "apply",
   "map", "reduce", "compute", "calculate", "analyze", "statistics",
   "save", "write", "export",
   "fit", "train", "predict", "evaluate", "score"]

/-- `CodeFilter.EXPLORATION_KEYWORDS` (code_filter.py lines 34-39). -/
def EXPLORATION_KEYWORDS : List String :=
  ["head", "tail", "describe", "info", "dtypes", "shape",
   "columns", "index", "explore", "inspect", "check", "verify",
   "print", "display", "show", "view", "look", "see",
   "debug"]

/-- `CodeFilter.VISUALIZATION_KEYWORDS` (code_filter.py lines 42-45). -/
def VISUALIZATION_KEYWORDS : List String :=
  ["plot", "plt.", "matplotlib", "seaborn", "sns.", "show()",
   "hist", "bar", "scatter", "line", "box", "violin", "heatmap"]

/-- Per-keyword test used by the data-processing keyword loop of
`CodeFilter.is_data_processing_code` (code_filter.py lines 93-109):
compound keywords (containing an underscore) and keywords of length at
least 4 use plain substring matching; only keywords of 3 characters or
fewer use the word-boundary regex. -/
def dpKeywordHit (codeLower : List Char) (kw : String) : Bool :=
  if kw.data.contains '_' then containsSub kw.data codeLower
  else if 4 ≤ kw.data.length then containsSub kw.data codeLower
  else wbMatch kw.data codeLower

/-- `CodeFilter.is_data_processing_code` (code_filter.py lines 73-131).
The `isinstance` check is vacuous in the typed model. -/
def is_data_processing_code (code : String) : Bool :=
  if isBlankStr code then false
  else
    let codeLower := lowerChars code
    let hasProcessing := DATA_PROCESSING_KEYWORDS.any (dpKeywordHit codeLower)
    let hasExploration := EXPLORATION_KEYWORDS.any (fun kw => wbMatch kw.data codeLower)
    let hasVisualization := VISUALIZATION_KEYWORDS.any (fun kw => containsSub kw.data codeLower)
    if hasVisualization && !hasProcessing then false
    else if hasExploration && !hasProcessing then false
    else hasProcessing

/-- Modelled from the spec (for claim C2 only, not from the source):
the matching rule as the spec states it, where every single-word keyword
(no underscore) is matched at word boundaries. -/
def dpKeywordHitSpec (codeLower : List Char) (kw : String) : Bool :=
  if kw.data.contains '_' then containsSub kw.data codeLower
  else wbMatch kw.data codeLower

/-- Modelled from the spec (for claim C2 only, not from the source):
`is_data_processing_code` as the spec's matching rules describe it. -/
def is_data_processing_code_spec (code : String) : Bool :=
  if isBlankStr code then false
  else
    let codeLower := lowerChars code
    let hasProcessing := DATA_PROCESSING_KEYWORDS.any (dpKeywordHitSpec codeLower)
    let hasExploration := EXPLORATION_KEYWORDS.any (fun kw => wbMatch kw.data codeLower)
    let hasVisualization := VISUALIZATION_KEYWORDS.any (fun kw => containsSub kw.data codeLower)
    if hasVisualization && !hasProcessing then false
    else if hasExploration && !hasProcessing then false
    else hasProcessing

/-- Per-entry decision of `CodeFilter.filter_executions`
(code_filter.py lines 150-172), in the source's order of checks. -/
def keepEntry (e : ExecEntry) : Bool :=
  if !e.success then false
  else if isBlankStr e.code then false
  else if 0 < e.output_files.length then true
  else is_data_processing_code e.code

/-- `CodeFilter.filter_executions` (code_filter.py lines 133-174). -/
def filter_executions (executions : List ExecEntry) : List ExecEntry :=
  executions.filter keepEntry

/-- Concrete failed execution carrying output files (input for claim C3). -/
def failedWithOutput : ExecEntry :=
  ExecEntry.mk "save data" "" false "" none [] ["a.csv"]

/-- Concrete successful exploration-keyword execution carrying output files
(witness input for claim C3). -/
def exploringWithOutput : ExecEntry :=
  ExecEntry.mk "df.head()" "" true "2025-01-01T00:00:00" none [] ["a.csv"]

/- ---------------------------------------------------------------
   WorkflowTracker (biomni/workflow/tracker.py)
   --------------------------------------------------------------- -/

/-- `WorkflowTracker.RESULT_TRUNCATE_LENGTH` (tracker.py line 19). -/
def RESULT_TRUNCATE_LENGTH : Nat := 10000

/-- Python slice `s[:n]` on a string. -/
def takeChars (n : Nat) (s : String) : String :=
  String.mk (s.data.take n)

/-- Python format `f"{n:04d}"`: decimal, left-padded with zeros to width 4. -/
def pad4 (n : Nat) : String :=
  let s := toString n
  if s.length < 4 then String.mk (List.replicate (4 - s.length) '0') ++ s else s

/-- Python `set.update`: add the new elements not already present. -/
def setUnion (s newElems : List String) : List String :=
  newElems.foldl (fun acc x => if acc.contains x then acc else acc ++ [x]) s

/-- The two renderings of one `datetime.now()` value used by
`track_execution`: `isoformat()` and `strftime("%Y%m%d_%H%M%S_%f")`. -/
structure ClockStamp where
  iso : String
  fmt : String
deriving DecidableEq, Repr, Inhabited

/-- The `metadata` sub-dict of a persisted execute block
(tracker.py lines 127-132). -/
structure SaveMetadata where
  code_length : Nat
  has_error : Bool
  num_input_files : Nat
  num_output_files : Nat
deriving DecidableEq, Repr, Inhabited

/-- The JSON payload of a persisted execute block, `save_data`
(tracker.py lines 117-133). -/
structure SaveData where
  execution_index : Nat
  timestamp : String
  success : Bool
  error_type : Option String
  code : String
  result : String
  result_length : Nat
  input_files : List String
  output_files : List String
  metadata : SaveMetadata
deriving DecidableEq, Repr, Inhabited

/-- Content of the `.py` sidecar file (tracker.py lines 140-150), as a
structured record: the comment-header fields followed by the code. -/
structure Sidecar where
  block_index : Nat
  timestamp : String
  success : Bool
  error_type : Option String
  input_files : List String
  output_files : List String
  code : String
deriving DecidableEq, Repr, Inhabited

/-- The on-disk `execute_blocks` directory, modelled as the files written
so far (writes are assumed to succeed; I/O failures are outside the model). -/
structure BlocksDir where
  jsonFiles : List (String × SaveData)
  pyFiles : List (String × Sidecar)
deriving DecidableEq, Repr, Inhabited

/-- Mutable state of a `WorkflowTracker` (tracker.py lines 28-45).
`hasBlocksDir` is whether a work directory was configured (so
`execute_blocks_dir` is set); `session_start_str` is
`session_start_time.strftime("%Y%m%d_%H%M%S")`. -/
structure TrackerState where
  execution_history : List ExecEntry
  all_input_files : List String
  all_output_files : List String
  hasBlocksDir : Bool
  session_start_str : String
deriving DecidableEq, Repr, Inhabited

/-- A freshly constructed tracker with a configured work directory
(tracker.py `__init__`). -/
def freshTracker (sessionStart : String) : TrackerState :=
  TrackerState.mk [] [] [] true sessionStart

/-- The empty execute-blocks directory. -/
def emptyBlocksDir : BlocksDir :=
  BlocksDir.mk [] []

/-- `WorkflowTracker._save_execute_block` (tracker.py lines 95-155),
called after the entry was appended to `execution_history`, so
`index = len(self.execution_history)` counts the new entry. -/
def save_execute_block (st : TrackerState) (dir : BlocksDir)
    (entry : ExecEntry) (stamp : ClockStamp) : BlocksDir × Option String :=
  if !st.hasBlocksDir then (dir, none)
  else
    let index := st.execution_history.length
    let filename := "execute_" ++ stamp.fmt ++ "_" ++ pad4 index ++ ".json"
    let save_data : SaveData :=
      SaveData.mk index entry.timestamp entry.success entry.error_type
        entry.code (takeChars RESULT_TRUNCATE_LENGTH entry.result)
        entry.result.data.length entry.input_files entry.output_files
        (SaveMetadata.mk entry.code.data.length (!entry.success)
          entry.input_files.length entry.output_files.length)
    let pyname := "execute_" ++ stamp.fmt ++ "_" ++ pad4 index ++ ".py"
    let sidecar : Sidecar :=
      Sidecar.mk index entry.timestamp entry.success entry.error_type
        entry.input_files entry.output_files entry.code
    (BlocksDir.mk (dir.jsonFiles ++ [(filename, save_data)])
      (dir.pyFiles ++ [(pyname, sidecar)]), some filename)

/-- `WorkflowTracker.track_execution` (tracker.py lines 47-93).  The
`datetime.now()` value is an explicit parameter (`stamp`). -/
def track_execution (st : TrackerState) (dir : BlocksDir)
    (code result : String) (success : Bool)
    (input_files output_files : List String) (error_type : Option String)
    (stamp : ClockStamp) : TrackerState × BlocksDir × Option String :=
  let entry : ExecEntry :=
    ExecEntry.mk code result success stamp.iso error_type input_files output_files
  let st1 : TrackerState :=
    { st with
      execution_history := st.execution_history ++ [entry]
      all_input_files := setUnion st.all_input_files input_files
      all_output_files := setUnion st.all_output_files output_files }
  let saved := save_execute_block st1 dir entry stamp
  (st1, saved.1, saved.2)

/-- Arguments of one `track_execution` call, clock stamp included. -/
structure CallArgs where
  code : String
  result : String
  success : Bool
  input_files : List String
  output_files : List String
  error_type : Option String
  stamp : ClockStamp
deriving DecidableEq, Repr, Inhabited

/-- A session: a sequence of `track_execution` calls against one tracker. -/
def runCalls (st : TrackerState) (dir : BlocksDir) :
    List CallArgs → TrackerState × BlocksDir
  | [] => (st, dir)
  | c :: cs =>
    let r := track_execution st dir c.code c.result c.success
      c.input_files c.output_files c.error_type c.stamp
    runCalls r.1 r.2.1 cs

/- ---------------------------------------------------------------
   Session windowing and journal loading (tracker.py lines 363-446)
   --------------------------------------------------------------- -/

/-- Python string `<=` (lexicographic comparison by code point). -/
def lexLe : List Char → List Char → Bool
  | [], _ => true
  | _ :: _, [] => false
  | a :: as, b :: bs =>
    if a.toNat < b.toNat then true
    else if b.toNat < a.toNat then false
    else lexLe as bs

/-- Worker for `removeAll`; the fuel is an upper bound on the number of
steps (each step consumes at least one character), making the recursion
structural so that it reduces in the kernel. -/
def removeAllAux (p : Char) (ps : List Char) : Nat → List Char → List Char
  | 0, l => l
  | _ + 1, [] => []
  | fuel + 1, c :: cs =>
    if (p :: ps).isPrefixOf (c :: cs) then removeAllAux p ps fuel (cs.drop ps.length)
    else c :: removeAllAux p ps fuel cs

/-- Python `str.replace(pat, '')` for a non-empty pattern `p :: ps`:
remove every (leftmost, non-overlapping) occurrence. -/
def removeAll (p : Char) (ps : List Char) (l : List Char) : List Char :=
  removeAllAux p ps l.length l

/-- `str.replace(pat, '')` with the pattern given as a string. -/
def removeAllStr (pat : String) (cs : List Char) : List Char :=
  match pat.data with
  | [] => cs
  | p :: ps => removeAll p ps cs

/-- Python `str.split(sep)` for a single-character separator. -/
def splitOnChar (sep : Char) : List Char → List (List Char)
  | [] => [[]]
  | c :: cs =>
    match splitOnChar sep cs with
    | [] => [[c]]
    | r :: rs => if c == sep then [] :: r :: rs else (c :: r) :: rs

/-- `WorkflowTracker._is_file_from_current_session` (tracker.py lines
423-446): strip `execute_` and `.json` from the filename, split on `_`,
and compare the `YYYYMMDD_HHMMSS` part with the session-start string;
on fewer than two parts the file is included (fail-open; no string
operation here can raise, so the `except` branch is unreachable). -/
def is_file_from_current_session (filename session_start_str : String) : Bool :=
  let base := removeAllStr ".json" (removeAllStr "execute_" filename.data)
  let parts := splitOnChar '_' base
  if 2 ≤ parts.length then
    lexLe session_start_str.data ((parts.getD 0 []) ++ '_' :: (parts.getD 1 []))
  else true

/-- One file of the on-disk journal as seen by the loader: its name and
the outcome of parsing its JSON (`none` models a file whose load raises,
which the source logs and skips). -/
structure BlockFile where
  name : String
  entry : Option ExecEntry
deriving DecidableEq, Repr, Inhabited

/-- Filename order used by `sorted(....glob("execute_*.json"))`. -/
def fileNameLe (a b : BlockFile) : Prop :=
  lexLe a.name.data b.name.data = true

instance : DecidableRel fileNameLe :=
  fun a b => inferInstanceAs (Decidable (lexLe a.name.data b.name.data = true))

/-- Order on entries used by `loaded_blocks.sort(key=lambda x: x["timestamp"])`. -/
def entryTimestampLe (a b : ExecEntry) : Prop :=
  lexLe a.timestamp.data b.timestamp.data = true

instance : DecidableRel entryTimestampLe :=
  fun a b => inferInstanceAs (Decidable (lexLe a.timestamp.data b.timestamp.data = true))

/-- `WorkflowTracker.load_execute_blocks_from_files` (tracker.py lines
363-421) over the modelled directory listing.  Python's `sorted`/`sort`
are stable; they are modelled with stable insertion sort. -/
def load_execute_blocks_from_files (dirFiles : List BlockFile)
    (session_start_str : String) (filter_by_session : Bool) : List ExecEntry :=
  let json_files := List.insertionSort fileNameLe dirFiles
  let json_files :=
    if filter_by_session then
      json_files.filter (fun f => is_file_from_current_session f.name session_start_str)
    else json_files
  let loaded_blocks := json_files.filterMap (fun f => f.entry)
  List.insertionSort entryTimestampLe loaded_blocks

/-- Concrete journal entry used for claim C4. -/
def overlapEntry : ExecEntry :=
  ExecEntry.mk "x = 1" "" true "2025-01-03T00:00:00" none [] []

/-- Concrete on-disk journal used for claim C4: a single block written on
2025-01-03. -/
def overlapDir : List BlockFile :=
  [BlockFile.mk "execute_20250103_000000_000000_0001.json" (some overlapEntry)]

/-- Session-start string of a tracker constructed on 2025-01-01. -/
def sessionStartA : String := "20250101_000000"

/-- Session-start string of a tracker constructed on 2025-01-02. -/
def sessionStartB : String := "20250102_000000"

/- ---------------------------------------------------------------
   WorkflowValidator.compare_outputs (biomni/workflow/validator.py)
   --------------------------------------------------------------- -/

/-- Python `bytes` content, as a list of byte values. -/
abbrev PyBytes := List Nat

/-- `WorkflowValidator.MAX_IN_MEMORY_SIZE` (validator.py line 30): 100 MB. -/
def MAX_IN_MEMORY_SIZE : Nat := 100 * 1024 * 1024

/-- A value of the `actual` dict passed to `compare_outputs`: either the
file's bytes, or the SHA-256 hex digest string that
`run_workflow_script` stores instead for files over 100 MB
(validator.py lines 183-192). -/
inductive ActualContent
  | bytes (b : PyBytes)
  | digest (h : String)
deriving DecidableEq, Repr, Inhabited

/-- Python `Path(p).name` (POSIX model: the part after the last slash). -/
def pathName (p : String) : String :=
  String.mk ((splitOnChar '/' p.data).getLastD [])

/-- Lower-case hex digit. -/
def hexDigit (n : Nat) : Char :=
  "0123456789abcdef".data.getD n '0'

/-- Python format `f"{b:02x}"` for a byte value. -/
def hexByte (n : Nat) : String :=
  String.mk [hexDigit (n / 16 % 16), hexDigit (n % 16)]

/-- First index at which two byte strings differ, with the two bytes
(the `zip`/`enumerate` loop of `_compute_diff`). -/
def firstDiff : PyBytes → PyBytes → Nat → Option (Nat × Nat × Nat)
  | a :: as, e :: es, i =>
    if a ≠ e then some (i, a, e) else firstDiff as es (i + 1)
  | _, _, _ => none

/-- `WorkflowValidator._compute_diff` (validator.py lines 414-437). -/
def compute_diff (actual expected : PyBytes) : String :=
  if actual.length ≠ expected.length then
    "Size difference: actual=" ++ toString actual.length
      ++ " bytes, expected=" ++ toString expected.length ++ " bytes"
  else if MAX_IN_MEMORY_SIZE < actual.length then
    "Large file differs (size: " ++ toString actual.length
      ++ " bytes). Use hash comparison for details."
  else
    match firstDiff actual expected 0 with
    | some (i, a, e) =>
      "First difference at byte " ++ toString i ++ ": actual=0x"
        ++ hexByte a ++ ", expected=0x" ++ hexByte e
    | none => "Files differ but same size"

/-- One entry of the `file_comparisons` dict: `{"match": ..., "diff": ...}`. -/
structure FileComparison where
  isMatch : Bool
  diff : Option String
deriving DecidableEq, Repr, Inhabited

/-- The per-file comparison of `compare_outputs` once a matching actual
file was found (validator.py lines 320-396).  `expected` is typed
`Dict[str, bytes]`, so the `str`/`str` and type-mismatch branches of the
source are unreachable in the typed model.  The SHA-256 engine is an
explicit parameter.  In the digest case the source computes
`hashlib.sha256(expected_content).hexdigest()` in both branches of its
size test (lines 357-361), so the test is dropped. -/
def compareContent (sha256 : PyBytes → String) (ac : ActualContent)
    (ec : PyBytes) : FileComparison :=
  match ac with
  | .bytes b =>
    if MAX_IN_MEMORY_SIZE < ec.length then
      if sha256 ec == sha256 b then FileComparison.mk true none
      else FileComparison.mk false (some "File hash differs (large file comparison)")
    else
      if b == ec then FileComparison.mk true none
      else FileComparison.mk false (some (compute_diff b ec))
  | .digest s =>
    if s == sha256 ec then FileComparison.mk true none
    else FileComparison.mk false (some "File hash differs (large file comparison)")

/-- The digest a content value denotes: the stored digest, or the digest
of the stored bytes. -/
def digestOf (sha256 : PyBytes → String) : ActualContent → String
  | .bytes b => sha256 b
  | .digest s => s

/-- The `for actual_path, actual_content in actual.items()` search with
`break` (validator.py lines 306-310): first actual file whose basename
equals the expected basename. -/
def findActualContent (actual : List (String × ActualContent))
    (expectedName : String) : Option ActualContent :=
  match actual with
  | [] => none
  | (ap, ac) :: rest =>
    if pathName ap == expectedName then some ac
    else findActualContent rest expectedName

/-- Python dict assignment `d[k] = v`: overwrite in place, or append. -/
def dictInsert {α : Type} (k : String) (v : α) :
    List (String × α) → List (String × α)
  | [] => [(k, v)]
  | (k0, v0) :: rest =>
    if k0 == k then (k, v) :: rest else (k0, v0) :: dictInsert k v rest

/-- Python dict lookup `d[k]` (first matching key), `none` when absent. -/
def dictLookup {α : Type} (m : List (String × α)) (k : String) : Option α :=
  match m with
  | [] => none
  | (k0, v0) :: rest => if k0 == k then some v0 else dictLookup rest k

/-- The comparison recorded for one expected file (the body of the
`for expected_path, expected_content in expected.items()` loop). -/
def comparisonFor (sha256 : PyBytes → String)
    (actual : List (String × ActualContent)) (pr : String × PyBytes) :
    FileComparison :=
  match findActualContent actual (pathName pr.1) with
  | none => FileComparison.mk false (some "File not generated by workflow")
  | some ac => compareContent sha256 ac pr.2

/-- One iteration of the expected-files loop of `compare_outputs`,
threading `(file_comparisons, differences, all_match)`. -/
def compareStep (sha256 : PyBytes → String)
    (actual : List (String × ActualContent))
    (acc : List (String × FileComparison) × List String × Bool)
    (pr : String × PyBytes) :
    List (String × FileComparison) × List String × Bool :=
  let cmp := comparisonFor sha256 actual pr
  let fname := pathName pr.1
  let diffMsg : Option String :=
    match findActualContent actual fname with
    | none => some ("Missing file: " ++ fname)
    | some _ =>
      if cmp.isMatch then none else some ("File differs: " ++ fname)
  (dictInsert pr.1 cmp acc.1,
   (match diffMsg with
    | none => acc.2.1
    | some m => acc.2.1 ++ [m]),
   acc.2.2 && cmp.isMatch)

/-- Result dict of `compare_outputs`. -/
structure ComparisonResult where
  all_match : Bool
  file_comparisons : List (String × FileComparison)
  differences : List String
  summary : String
deriving DecidableEq, Repr, Inhabited

/-- `WorkflowValidator.compare_outputs` (validator.py lines 260-412). -/
def compare_outputs (sha256 : PyBytes → String)
    (actual : List (String × ActualContent))
    (expected : List (String × PyBytes)) : ComparisonResult :=
  let res := expected.foldl (compareStep sha256 actual) ([], [], true)
  let expected_filenames := expected.map (fun pr => pathName pr.1)
  let differences := actual.foldl (fun ds pr =>
    if expected_filenames.contains (pathName pr.1) then ds
    else ds ++ ["Extra file generated: " ++ pathName pr.1]) res.2.1
  ComparisonResult.mk res.2.2 res.1 differences
    (if res.2.2 then "All files match"
     else toString differences.length ++ " difference(s) found")

/-- A concrete expected-output content just over the 100 MB limit
(witness input for claim C8). -/
def bigExpectedContent : PyBytes :=
  List.replicate (MAX_IN_MEMORY_SIZE + 1) 0

/-- A stand-in SHA-256 engine usable in closed witness statements:
digests are not recomputed by the kernel, only compared. -/
def dummySha (b : PyBytes) : String :=
  "sha-" ++ toString b.length

/- ---------------------------------------------------------------
   WorkflowSaver.save_and_validate_workflow (biomni/workflow/saver.py)
   --------------------------------------------------------------- -/

/-- The three save modes (saver.py line 1149). -/
inductive SaveMode
  | llm
  | simple
  | notebook
deriving DecidableEq, Repr, Inhabited

/-- `WorkflowSaver.DEFAULT_MAX_FIX_ATTEMPTS` (saver.py line 30). -/
def DEFAULT_MAX_FIX_ATTEMPTS : Nat := 2

/-- The externals one `save_and_validate_workflow` run interacts with,
as oracles: whether a validator was configured, whether the tracker has
non-empty expected outputs, the verdict of the n-th validator call,
whether the first rule-based fix pass changed the file, and whether the
n-th LLM fix attempt produced a new non-empty fix (saver.py line 1366:
`if not fixed_workflow or fixed_workflow == current_workflow: continue`). -/
structure SaveEnv where
  hasValidator : Bool
  expectedOutputsNonempty : Bool
  validateResult : Nat → Bool
  ruleFixChanged : Bool
  llmFixDistinct : Nat → Bool
  maxFixAttempts : Nat

/-- Final disposition of the artifact file: finalized (renamed so that no
`.tmp.py` suffix remains) or left as the temporary file. -/
inductive SaveOutcome
  | finalized
  | leftTmp
deriving DecidableEq, Repr, Inhabited

/-- The LLM fix loop of `save_and_validate_workflow` (saver.py lines
1360-1422): up to `remaining` further attempts, numbered from `attempt`;
a non-distinct LLM reply skips validation (`continue`); a distinct one is
rule-fixed, written, and validated (call number `vcount`).  The second
component accumulates the validator verdicts observed. -/
def llmFixLoop (env : SaveEnv) :
    Nat → Nat → Nat → List Bool → SaveOutcome × List Bool
  | 0, _, _, vals => (SaveOutcome.leftTmp, vals)
  | remaining + 1, attempt, vcount, vals =>
    if env.llmFixDistinct attempt then
      if env.validateResult vcount then (SaveOutcome.finalized, vals ++ [true])
      else llmFixLoop env remaining (attempt + 1) (vcount + 1) (vals ++ [false])
    else llmFixLoop env remaining (attempt + 1) vcount vals

/-- `WorkflowSaver.save_and_validate_workflow` (saver.py lines 1144-1422)
after `save_workflow` produced an artifact, as the disposition of that
artifact plus the list of validator verdicts observed, in call order.
Branches in source order: no validator configured (line 1187), notebook
mode skips validation (line 1200), empty expected outputs (line 1232),
initial validation (line 1268), one rule-based fix pass when it changes
the file (lines 1300-1334), simple mode finalizes as-is (line 1346), and
the LLM fix loop.  File I/O failures are outside the model. -/
def save_and_validate_run (env : SaveEnv) (mode : SaveMode) :
    SaveOutcome × List Bool :=
  if !env.hasValidator then (SaveOutcome.finalized, [])
  else if mode = SaveMode.notebook then (SaveOutcome.finalized, [])
  else if !env.expectedOutputsNonempty then (SaveOutcome.finalized, [])
  else
    if env.validateResult 0 then (SaveOutcome.finalized, [true])
    else
      if env.ruleFixChanged then
        if env.validateResult 1 then (SaveOutcome.finalized, [false, true])
        else if mode = SaveMode.simple then (SaveOutcome.finalized, [false, false])
        else llmFixLoop env env.maxFixAttempts 1 2 [false, false]
      else if mode = SaveMode.simple then (SaveOutcome.finalized, [false])
      else llmFixLoop env env.maxFixAttempts 1 1 [false]

/-- Whether the artifact `save_workflow` writes carries the `.tmp.py`
suffix: only LLM mode saves with `temp=True` (saver.py line 381); simple
mode saves under the final name directly (line 2367, `temp=False`) and
notebook mode writes an `.ipynb` (line 2556). -/
def artifactSavedAsTmp : SaveMode → Bool
  | SaveMode.llm => true
  | _ => false

/-- Does an artifact file without the `.tmp.py` suffix exist after the
run?  Finalization renames `.tmp.py` to `.py` (saver.py lines 1808-1843);
for simple and notebook modes the name never had the suffix. -/
def nonTmpArtifactExists (mode : SaveMode) (outcome : SaveOutcome) : Bool :=
  !artifactSavedAsTmp mode || (outcome == SaveOutcome.finalized)

/-- Environment for the claim-C1 counterexample: a validator is
configured, expected outputs exist, and every validation fails. -/
def c1Env : SaveEnv :=
  SaveEnv.mk true true (fun _ => false) false (fun _ => true)
    DEFAULT_MAX_FIX_ATTEMPTS

/- ---------------------------------------------------------------
   AST-driven alias/import reconciliation
   (WorkflowSaver._apply_rule_based_fixes /
    WorkflowSaver._detect_alias_mismatches_ast, saver.py lines 911-1142)
   --------------------------------------------------------------- -/

/-- The `ast.walk` events `_detect_alias_mismatches_ast` inspects
(saver.py lines 1004-1037): `Import` and `ImportFrom` statements with
their name/asname pairs and 0-based line (`node.lineno - 1`; parsed
nodes always carry a lineno, so the -1 fallback of line 1011 cannot
occur), attribute accesses whose value is a plain `Name`, and call sites
whose callee is a plain `Name`.  Every other node kind is ignored. -/
inductive PyNode
  | imp (names : List (String × Option String)) (lineno : Nat)
  | impFrom (module : String) (names : List (String × Option String)) (lineno : Nat)
  | attr (base : String)
  | call (fname : String)
  | funcDef (name : String) (args : List String) (lineno : Nat) (src : String)
  | classDef (name : String)
  | nameStore (id : String)
  | other
deriving DecidableEq, Repr, Inhabited

/-- Python `set.add` on an insertion-ordered, deduplicated model of a set.
(CPython set iteration order is unspecified; the claims proved here do
not depend on it.) -/
def setAdd (s : List String) (x : String) : List String :=
  if s.contains x then s else s ++ [x]

/-- Python `str.strip()` (whitespace on both ends). -/
def pyStrip (cs : List Char) : List Char :=
  ((cs.dropWhile Char.isWhitespace).reverse.dropWhile Char.isWhitespace).reverse

/-- Last dot component of a module path, `module.split('.')[-1]`. -/
def lastComponent (m : String) : String :=
  String.mk ((splitOnChar '.' m.data).getLastD [])

/-- Python `str.split()` (split on whitespace runs, discarding empties);
the fuel is an upper bound on the number of steps. -/
def splitWsFuel : Nat → List Char → List (List Char)
  | 0, _ => []
  | _ + 1, [] => []
  | fuel + 1, c :: cs =>
    if c.isWhitespace then splitWsFuel fuel cs
    else
      (c :: cs).takeWhile (fun ch => !ch.isWhitespace)
        :: splitWsFuel fuel ((c :: cs).dropWhile (fun ch => !ch.isWhitespace))

/-- `s.split()[-1]`: the last whitespace-separated word. -/
def lastWord (s : String) : String :=
  String.mk ((splitWsFuel s.data.length s.data).getLastD [])

/-- Value of `imports_by_alias[alias]` resp. `imports_by_module[module]`:
the tuple `(module-or-alias, import_line, full_import_stmt)`. -/
structure ImportRecord where
  target : String
  line : Nat
  stmt : String
deriving DecidableEq, Repr, Inhabited

/-- The five collections built by the single walk of
`_detect_alias_mismatches_ast` (saver.py lines 998-1002). -/
structure WalkState where
  imports_by_alias : List (String × ImportRecord)
  imports_by_module : List (String × ImportRecord)
  used_aliases : List String
  used_modules : List String
  used_classes : List String
deriving DecidableEq, Repr, Inhabited

/-- The initial, empty walk state. -/
def emptyWalkState : WalkState :=
  WalkState.mk [] [] [] [] []

/-- Reconstructed statement for `import module [as alias]`
(saver.py line 1010). -/
def importStmtOf (module : String) (asname : Option String) : String :=
  "import " ++ module ++ (match asname with
    | some a => " as " ++ a
    | none => "")

/-- Reconstructed statement for a `from module import name [as alias]`
node; a missing module falls back to a plain import (saver.py line 1021). -/
def fromImportStmtOf (module name : String) (asname : Option String) : String :=
  if module == "" then importStmtOf name asname
  else "from " ++ module ++ " import " ++ name ++ (match asname with
    | some a => " as " ++ a
    | none => "")

/-- Processing of one walk event (saver.py lines 1004-1037). -/
def walkStep (s : WalkState) : PyNode → WalkState
  | PyNode.imp names lineno =>
    names.foldl (fun acc pr =>
      let module := pr.1
      let alias_name := match pr.2 with
        | some a => a
        | none => lastComponent module
      let stmt := importStmtOf module pr.2
      { acc with
        imports_by_alias :=
          dictInsert alias_name (ImportRecord.mk module lineno stmt)
            acc.imports_by_alias
        imports_by_module :=
          dictInsert module (ImportRecord.mk alias_name lineno stmt)
            acc.imports_by_module }) s
  | PyNode.impFrom module names lineno =>
    names.foldl (fun acc pr =>
      let name := pr.1
      let alias_name := match pr.2 with
        | some a => a
        | none => name
      let full_module := if module == "" then name else module ++ "." ++ name
      let stmt := fromImportStmtOf module name pr.2
      { acc with
        imports_by_alias :=
          dictInsert alias_name (ImportRecord.mk full_module lineno stmt)
            acc.imports_by_alias
        imports_by_module :=
          dictInsert full_module (ImportRecord.mk alias_name lineno stmt)
            acc.imports_by_module }) s
  | PyNode.attr base =>
    { s with
      used_modules := setAdd s.used_modules base
      used_aliases := setAdd s.used_aliases base }
  | PyNode.call fname =>
    { s with used_classes := setAdd s.used_classes fname }
  | _ => s

/-- The single `ast.walk` pass. -/
def walkCollect (nodes : List PyNode) (s : WalkState) : WalkState :=
  nodes.foldl walkStep s

/-- `alias_mappings` (saver.py lines 1041-1048):
alias, expected module, canonical import. -/
def alias_mappings : List (String × String × String) :=
  [("pd", "pandas", "import pandas as pd"),
   ("np", "numpy", "import numpy as np"),
   ("plt", "matplotlib.pyplot", "import matplotlib.pyplot as plt"),
   ("sns", "seaborn", "import seaborn as sns"),
   ("stats", "scipy.stats", "from scipy import stats"),
   ("gp", "gseapy", "import gseapy as gp")]

/-- `module_mappings` (saver.py lines 1051-1061). -/
def module_mappings : List (String × String) :=
  [("argparse", "import argparse"),
   ("glob", "import glob"),
   ("os", "import os"),
   ("sys", "import sys"),
   ("json", "import json"),
   ("csv", "import csv"),
   ("re", "import re"),
   ("datetime", "import datetime"),
   ("pathlib", "from pathlib import Path")]

/-- `class_mappings` (saver.py lines 1064-1072).  The merged
`common_mappings` of line 1074 is dead code (never read) and is omitted. -/
def class_mappings : List (String × String) :=
  [("StandardScaler", "from sklearn.preprocessing import StandardScaler"),
   ("PCA", "from sklearn.decomposition import PCA"),
   ("multipletests", "from statsmodels.stats.multitest import multipletests"),
   ("ttest_ind", "from scipy.stats import ttest_ind"),
   ("ttest_rel", "from scipy.stats import ttest_rel"),
   ("ttest_1samp", "from scipy.stats import ttest_1samp"),
   ("Path", "from pathlib import Path")]

/-- One fix: the canonical import text and the 0-based line of the wrong
wrong import it replaces (`some line`), or `none` for "insert new"
(the source encodes "insert new" as line index -1). -/
abbrev ImportFix := String × Option Nat

/-- Step 4 of the detection, for one element of `used_modules`
(saver.py lines 1077-1090).  Lines of parsed nodes are never negative,
so `import_line >= 0` always holds. -/
def step4Elem (s : WalkState) (used_module : String) : List ImportFix :=
  match dictLookup module_mappings used_module with
  | none => []
  | some correct_import =>
    if (dictLookup s.imports_by_alias used_module).isNone
        && (dictLookup s.imports_by_module used_module).isNone then
      [(correct_import, none)]
    else
      match dictLookup s.imports_by_alias used_module with
      | some r => if r.target == used_module then [] else [(correct_import, some r.line)]
      | none => []

/-- Step 5 of the detection, for one element of `used_aliases`
(saver.py lines 1093-1118).  The mismatch test is the source's two-way
substring check. -/
def step5Elem (s : WalkState) (used_alias : String) : List ImportFix :=
  match dictLookup alias_mappings used_alias with
  | none => []
  | some em_ci =>
    let expected_module := em_ci.1
    let correct_import := em_ci.2
    match dictLookup s.imports_by_alias used_alias with
    | some r =>
      if !containsSub expected_module.data r.target.data
          && !containsSub r.target.data expected_module.data then
        [(correct_import, some r.line)]
      else []
    | none =>
      match dictLookup s.imports_by_module expected_module with
      | some r =>
        if r.target != used_alias then [(correct_import, some r.line)]
        else [(correct_import, none)]
      | none => [(correct_import, none)]

/-- Step 6 of the detection, for one element of `used_classes`
(saver.py lines 1121-1131). -/
def step6Elem (s : WalkState) (used_class : String) : List ImportFix :=
  match dictLookup class_mappings used_class with
  | none => []
  | some correct_import =>
    if (dictLookup s.imports_by_alias used_class).isNone then
      if lastWord correct_import == used_class then [(correct_import, none)]
      else []
    else []

/-- The three fix passes of `_detect_alias_mismatches_ast` over the
collected walk state, appending into one `fixes` list. -/
def detectFromState (s : WalkState) : List ImportFix :=
  (s.used_modules.foldl (fun fixes m => fixes ++ step4Elem s m) [])
    ++ (s.used_aliases.foldl (fun fixes a => fixes ++ step5Elem s a) [])
    ++ (s.used_classes.foldl (fun fixes c => fixes ++ step6Elem s c) [])

/-- `WorkflowSaver._detect_alias_mismatches_ast` (saver.py lines
974-1142): parse, one collection walk, then the three fix passes.
A parse failure returns the empty list (lines 1133-1140). -/
def detect_alias_mismatches_ast (parse : String → Except String (List PyNode))
    (code : String) : List ImportFix :=
  match parse code with
  | Except.error _ => []
  | Except.ok nodes => detectFromState (walkCollect nodes emptyWalkState)

/-- Python `code.split('\n')` as a list of line strings. -/
def splitLines (code : String) : List String :=
  (splitOnChar '\n' code.data).map String.mk

/-- Python `'\n'.join(lines)`. -/
def joinLines (lines : List String) : String :=
  String.intercalate "\n" lines

/-- Does a stripped line start with `import ` or `from `? -/
def isImportLine (l : String) : Bool :=
  "import ".data.isPrefixOf (pyStrip l.data)
    || "from ".data.isPrefixOf (pyStrip l.data)

/-- Import-section scan of `_apply_rule_based_fixes` (saver.py lines
930-944): record the index of the first import line; stop at the first
later non-blank non-comment line, which then becomes the section end;
`None` at the end of the scan means `len(lines)`. -/
def importSectionEndGo : List String → Nat → Option Nat → Nat
  | [], idx, none => idx
  | [], _, some j => j
  | l :: rest, idx, acc =>
    let stripped := pyStrip l.data
    if "import ".data.isPrefixOf stripped || "from ".data.isPrefixOf stripped then
      importSectionEndGo rest (idx + 1) (some (acc.getD idx))
    else if acc.isSome && !stripped.isEmpty && !("#".data.isPrefixOf stripped) then
      idx
    else importSectionEndGo rest (idx + 1) acc

/-- `import_section_end` for a list of lines. -/
def importSectionEnd (lines : List String) : Nat :=
  importSectionEndGo lines 0 none

/-- The backwards scan for the insertion position of a new import
(saver.py lines 956-960): the first import line at index `i` below the
section end gives `i + 1`; otherwise the section end itself. -/
def lastImportBeforeAux (lines : List String) (endIdx : Nat) : Nat → Nat
  | 0 => endIdx
  | i + 1 =>
    if isImportLine (lines.getD i "") then i + 1
    else lastImportBeforeAux lines endIdx i

/-- Insertion position for a `(correct_import, -1)` fix. -/
def lastImportBefore (lines : List String) (endIdx : Nat) : Nat :=
  lastImportBeforeAux lines endIdx endIdx

/-- The fix-application loop of `_apply_rule_based_fixes` (saver.py lines
946-963), threading the mutable `lines` and `import_section_end`. -/
def applyFixes : List ImportFix → List String × Nat → List String × Nat
  | [], st => st
  | (ci, some idx) :: rest, (lines, e) => applyFixes rest (lines.set idx ci, e)
  | (ci, none) :: rest, (lines, e) =>
    applyFixes rest (lines.insertIdx (lastImportBefore lines e) ci, e + 1)

/-- `WorkflowSaver._apply_rule_based_fixes` (saver.py lines 911-972).
When no fixes are detected the code is returned unchanged; otherwise the
fixes are applied to the line list and rejoined (a non-empty fix list
always sets `changes_made`). -/
def apply_rule_based_fixes (parse : String → Except String (List PyNode))
    (code : String) : String :=
  if (detect_alias_mismatches_ast parse code).isEmpty then code
  else
    joinLines (applyFixes (detect_alias_mismatches_ast parse code)
      (splitLines code, importSectionEnd (splitLines code))).1

/-- The notion of "imports and aliases already correct" used for claim
C6: every used base name that appears in `module_mappings` is imported as
a plain `import m` binding; every used base name that appears in
`alias_mappings` is bound by an import of exactly the expected module;
every called name that appears in `class_mappings` is bound by
some import. -/
def aliasesCorrect (s : WalkState) : Bool :=
  s.used_modules.all (fun m =>
    match dictLookup module_mappings m with
    | none => true
    | some _ =>
      match dictLookup s.imports_by_alias m with
      | some r => r.target == m
      | none => false)
  && s.used_aliases.all (fun a =>
    match dictLookup alias_mappings a with
    | none => true
    | some em_ci =>
      match dictLookup s.imports_by_alias a with
      | some r => r.target == em_ci.1
      | none => false)
  && s.used_classes.all (fun c =>
    match dictLookup class_mappings c with
    | none => true
    | some _ => (dictLookup s.imports_by_alias c).isSome)

/-- Walk events of the already-correct program
`import pandas as pd` / `pd.read_csv("x.csv")` (witness input for C6). -/
def correctDemoNodes : List PyNode :=
  [PyNode.imp [("pandas", some "pd")] 0, PyNode.attr "pd"]

/-- A parse oracle returning the demo walk events. -/
def correctDemoParse : String → Except String (List PyNode) :=
  fun _ => Except.ok correctDemoNodes

/-- Source text of the demo program. -/
def correctDemoCode : String :=
  "import pandas as pd\ndf = pd.read_csv(\x22x.csv\x22)"

/- ---------------------------------------------------------------
   CodeExtractor (biomni/workflow/utils/code_extractor.py)

   The Python parser (`ast.parse`), the availability probe of the host
   interpreter, and the `re` engine are external; they enter as oracle
   parameters.  `ast.parse` on malformed source raises `SyntaxError`
   (its failure mode on current CPython; resource exhaustion such as
   RecursionError on pathologically nested source is outside the model),
   modelled as the `Except.error` case.  Each operation returns
   `Except String _`: an uncaught exception would surface as `.error`.
   --------------------------------------------------------------- -/

/-- Python `pat in s` for strings. -/
def strContainsSub (pat s : String) : Bool :=
  containsSub pat.data s.data

/-- First segment of `s.split(pat)` (the prefix before the first
occurrence of the non-empty pattern `p :: ps`); the fuel is an upper
bound on the number of steps. -/
def takeUntilPat (p : Char) (ps : List Char) : Nat → List Char → List Char
  | 0, l => l
  | _ + 1, [] => []
  | fuel + 1, c :: cs =>
    if (p :: ps).isPrefixOf (c :: cs) then []
    else c :: takeUntilPat p ps fuel cs

/-- `s.split(pat)[0]` with the pattern given as a string. -/
def takeUntilStr (pat : String) (cs : List Char) : List Char :=
  match pat.data with
  | [] => cs
  | p :: ps => takeUntilPat p ps cs.length cs

/-- `CodeExtractor._extract_module_name_from_import`
(code_extractor.py lines 65-90). -/
def extract_module_name_from_import (stmt : String) : String :=
  let s := pyStrip stmt.data
  if "import ".data.isPrefixOf s then
    String.mk (takeUntilStr "."
      (pyStrip (takeUntilStr " as " (removeAllStr "import " s))))
  else if "from ".data.isPrefixOf s then
    String.mk (takeUntilStr "."
      (pyStrip (takeUntilStr " import " (removeAllStr "from " s))))
  else ""

/-- `CodeExtractor.filter_available_imports` (code_extractor.py lines
92-133); the host interpreter's module probe `_is_package_available`
(itself total: every exception is caught, lines 50-63) is the oracle
`availableModule`. -/
def filter_available_imports (availableModule : String → Bool)
    (imports : List String) : List String :=
  imports.foldl (fun acc stmt =>
    let module_name := extract_module_name_from_import stmt
    if module_name == "" then acc ++ [stmt]
    else if availableModule module_name then acc ++ [stmt]
    else acc) []

/-- One function record of `extract_functions`. -/
structure FuncInfo where
  name : String
  args : List String
  lineno : Nat
  code : String
deriving DecidableEq, Repr, Inhabited

/-- `CodeExtractor.extract_functions` (code_extractor.py lines 135-163):
collect `FunctionDef` nodes; `except SyntaxError` yields the empty list. -/
def extract_functions (parse : String → Except String (List PyNode))
    (code : String) : Except String (List FuncInfo) :=
  match parse code with
  | Except.ok tree =>
    Except.ok (tree.foldl (fun acc n =>
      match n with
      | PyNode.funcDef name args lineno src =>
        acc ++ [FuncInfo.mk name args lineno src]
      | _ => acc) [])
  | Except.error _ => Except.ok []

/-- Import statements contributed by one walk node
(code_extractor.py lines 181-202): one statement per `Import` alias,
one combined statement per `ImportFrom` node. -/
def importStmtsOfNode : PyNode → List String
  | PyNode.imp names _ => names.map (fun pr => importStmtOf pr.1 pr.2)
  | PyNode.impFrom module names _ =>
    if names.isEmpty then ["from " ++ module ++ " import *"]
    else
      ["from " ++ module ++ " import "
        ++ String.intercalate ", " (names.map (fun pr =>
            pr.1 ++ (match pr.2 with
              | some a => " as " ++ a
              | none => "")))]
  | _ => []

/-- Python string order (for `sorted`). -/
def strLeProp (a b : String) : Prop :=
  lexLe a.data b.data = true

instance : DecidableRel strLeProp :=
  fun a b => inferInstanceAs (Decidable (lexLe a.data b.data = true))

/-- Remove adjacent duplicates (after sorting this realizes
`sorted(list(set(...)))`). -/
def dedupAdjacent : List String → List String
  | [] => []
  | [x] => [x]
  | x :: y :: rest =>
    if x == y then dedupAdjacent (y :: rest)
    else x :: dedupAdjacent (y :: rest)

/-- `sorted(list(imports))` for a `set()` accumulated as a list. -/
def sortedDedup (l : List String) : List String :=
  dedupAdjacent (List.insertionSort strLeProp l)

/-- Match of `\s+` at the head: the whitespace run and the rest. -/
def matchWsPlus : List Char → Option (List Char × List Char)
  | [] => none
  | c :: cs =>
    if c.isWhitespace then
      some ((c :: cs).takeWhile Char.isWhitespace,
        (c :: cs).dropWhile Char.isWhitespace)
    else none

/-- Match of the first regex alternative `import\s+\S+` at a line start,
returning the matched text. -/
def matchImportAlt (line : List Char) : Option (List Char) :=
  if "import".data.isPrefixOf line then
    match matchWsPlus (line.drop 6) with
    | none => none
    | some (ws, rest) =>
      let tok := rest.takeWhile (fun c => !c.isWhitespace)
      if tok.isEmpty then none
      else some ("import".data ++ ws ++ tok)
  else none

/-- Match of the second regex alternative `from\s+\S+\s+import\s+[^\n]+`
at a line start, returning the matched text (to the end of the line). -/
def matchFromAlt (line : List Char) : Option (List Char) :=
  if "from".data.isPrefixOf line then
    match matchWsPlus (line.drop 4) with
    | none => none
    | some (ws1, r1) =>
      let tok := r1.takeWhile (fun c => !c.isWhitespace)
      if tok.isEmpty then none
      else
        match matchWsPlus (r1.dropWhile (fun c => !c.isWhitespace)) with
        | none => none
        | some (ws2, r3) =>
          if "import".data.isPrefixOf r3 then
            match matchWsPlus (r3.drop 6) with
            | none => none
            | some (ws3, r5) =>
              if r5.isEmpty then none
              else some ("from".data ++ ws1 ++ tok ++ ws2
                ++ "import".data ++ ws3 ++ r5)
          else none
  else none

/-- The regex fallback of `extract_imports` (code_extractor.py lines
205-207): `re.findall(r'^(import\s+\S+|from\s+\S+\s+import\s+[^\n]+)',
code, re.MULTILINE)`, i.e. at each line start the first alternative,
then the second. -/
def regexImportFallback (code : String) : List String :=
  (splitOnChar '\n' code.data).foldl (fun acc line =>
    match matchImportAlt line with
    | some m => acc ++ [String.mk m]
    | none =>
      match matchFromAlt line with
      | some m => acc ++ [String.mk m]
      | none => acc) []

/-- `CodeExtractor.extract_imports` (code_extractor.py lines 165-215). -/
def extract_imports (parse : String → Except String (List PyNode))
    (availableModule : String → Bool) (code : String)
    (filter_unavailable : Bool) : Except String (List String) :=
  let imports_list :=
    match parse code with
    | Except.ok tree =>
      sortedDedup (tree.foldl (fun acc n => acc ++ importStmtsOfNode n) [])
    | Except.error _ => sortedDedup (regexImportFallback code)
  Except.ok (if filter_unavailable
    then filter_available_imports availableModule imports_list
    else imports_list)

/-- One `re` match as delivered by the external regex engine: the first
capture group and the match span. -/
structure ReMatch where
  group1 : String
  startPos : Nat
  endPos : Nat
deriving DecidableEq, Repr, Inhabited

/-- Python `Path(p).suffix`: the final extension of the basename
(empty for a leading-dot-only or trailing-dot name). -/
def pathSuffix (p : String) : String :=
  let name := (pathName p).data
  let idx := name.length - ((name.reverse.takeWhile (fun c => c ≠ '.')).length + 1)
  if name.contains '.' && 0 < idx && idx < name.length - 1 then
    String.mk (name.drop idx)
  else ""

/-- `CodeExtractor._get_context` (code_extractor.py lines 362-382). -/
def get_context (code : String) (startPos endPos context_lines : Nat) : String :=
  let lines := splitLines code
  let start_line := (code.data.take startPos).count '\n'
  let end_line := (code.data.take endPos).count '\n'
  let context_start := start_line - context_lines
  let context_end := min lines.length (end_line + context_lines + 1)
  joinLines ((lines.take context_end).drop context_start)

/-- One record of `identify_hardcoded_paths`. -/
structure PathInfo where
  path : String
  position : Nat
  context : String
deriving DecidableEq, Repr, Inhabited

/-- The two path regexes of `identify_hardcoded_paths`
(code_extractor.py lines 230-233), as pattern texts handed to the
regex-engine oracle. -/
def PATH_PATTERNS : List String :=
  ["[\x22']([^\x22']*\\.(?:csv|tsv|txt|json|xlsx|xls|pkl|h5|hdf5|png|jpg|jpeg|pdf))[\x22']",
   "[\x22']([^\x22']*[/\\\\][^\x22']+)[\x22']"]

/-- `CodeExtractor.identify_hardcoded_paths` (code_extractor.py lines
217-247); `reFinditer pattern code` is the external `re.finditer`. -/
def identify_hardcoded_paths (reFinditer : String → String → List ReMatch)
    (code : String) : Except String (List PathInfo) :=
  Except.ok (PATH_PATTERNS.foldl (fun acc pattern =>
    (reFinditer pattern code).foldl (fun acc2 m =>
      if strContainsSub "/" m.group1 || strContainsSub "\\" m.group1
          || (pathSuffix m.group1).data.contains '.' then
        acc2 ++ [PathInfo.mk m.group1 m.startPos
          (get_context code m.startPos m.endPos 2)]
      else acc2) acc) [])

/-- One read/write call site of `extract_file_operations`. -/
structure FileOp where
  file : String
  operation : String
  position : Nat
deriving DecidableEq, Repr, Inhabited

/-- The read patterns of `extract_file_operations`
(code_extractor.py lines 263-269). -/
def READ_PATTERNS : List (String × String) :=
  [("pd\\.read_csv\\([\x22']([^\x22']+)[\x22']", "pandas.read_csv"),
   ("pd\\.read_excel\\([\x22']([^\x22']+)[\x22']", "pandas.read_excel"),
   ("pd\\.read_json\\([\x22']([^\x22']+)[\x22']", "pandas.read_json"),
   ("open\\([\x22']([^\x22']+)[\x22'],\\s*[\x22']r[\x22']", "open_read"),
   ("np\\.load\\([\x22']([^\x22']+)[\x22']", "numpy.load")]

/-- The write patterns of `extract_file_operations`
(code_extractor.py lines 272-279). -/
def WRITE_PATTERNS : List (String × String) :=
  [("\\.to_csv\\([\x22']([^\x22']+)[\x22']", "pandas.to_csv"),
   ("\\.to_excel\\([\x22']([^\x22']+)[\x22']", "pandas.to_excel"),
   ("\\.to_json\\([\x22']([^\x22']+)[\x22']", "pandas.to_json"),
   ("open\\([\x22']([^\x22']+)[\x22'],\\s*[\x22']w", "open_write"),
   ("plt\\.savefig\\([\x22']([^\x22']+)[\x22']", "matplotlib.savefig"),
   ("\\.save\\([\x22']([^\x22']+)[\x22']", "generic.save")]

/-- Result of `extract_file_operations`. -/
structure FileOpsResult where
  read_operations : List FileOp
  write_operations : List FileOp
deriving DecidableEq, Repr, Inhabited

/-- `CodeExtractor.extract_file_operations` (code_extractor.py lines
249-302). -/
def extract_file_operations (reFinditer : String → String → List ReMatch)
    (code : String) : Except String FileOpsResult :=
  Except.ok (FileOpsResult.mk
    (READ_PATTERNS.foldl (fun acc pr =>
      acc ++ (reFinditer pr.1 code).map (fun m =>
        FileOp.mk m.group1 pr.2 m.startPos)) [])
    (WRITE_PATTERNS.foldl (fun acc pr =>
      acc ++ (reFinditer pr.1 code).map (fun m =>
        FileOp.mk m.group1 pr.2 m.startPos)) []))

/-- The output-file patterns of `extract_output_files`
(code_extractor.py lines 472-478). -/
def OUTPUT_PATTERNS : List String :=
  ["\\.to_csv\\([\x22']([^\x22']+)[\x22']",
   "\\.savefig\\([\x22']([^\x22']+)[\x22']",
   "gseaplot\\([^,]+ofname=[\x22']([^\x22']+)[\x22']",
   "\\.to_excel\\([\x22']([^\x22']+)[\x22']",
   "\\.to_json\\([\x22']([^\x22']+)[\x22']"]

/-- Order-preserving deduplication, modelling `list(set(...))`
(CPython's set order is unspecified; first occurrence is kept here). -/
def dedupPreserving (l : List String) : List String :=
  l.foldl setAdd []

/-- `CodeExtractor.extract_output_files` (code_extractor.py lines
459-486). -/
def extract_output_files (reFinditer : String → String → List ReMatch)
    (code : String) : Except String (List String) :=
  Except.ok (dedupPreserving (OUTPUT_PATTERNS.foldl (fun acc pattern =>
    acc ++ (reFinditer pattern code).map (fun m => pathName m.group1)) []))

/-- Result of `find_import_section`: a character span or a line span. -/
inductive ImportSection
  | charSpan (startPos endPos : Nat)
  | lineSpan (start_line end_line : Nat)
deriving DecidableEq, Repr, Inhabited

/-- The line scan of `find_import_section` (code_extractor.py lines
437-445): first import line, end of the contiguous import block
(comments and blank lines do not end it), stop at the first later
non-blank non-comment line. -/
def findImportSpanGo : List String → Nat → Option Nat → Option Nat →
    Option Nat × Option Nat
  | [], _, s, e => (s, e)
  | l :: rest, i, s, e =>
    let stripped := pyStrip l.data
    if "import ".data.isPrefixOf stripped
        || "from ".data.isPrefixOf stripped then
      findImportSpanGo rest (i + 1) (some (s.getD i)) (some (i + 1))
    else if s.isSome && !stripped.isEmpty
        && !("#".data.isPrefixOf stripped) then
      (s, e)
    else findImportSpanGo rest (i + 1) s e

/-- `sum(len(lines[i]) + 1 for i in range(k))`. -/
def charOffsetOfLine (lines : List String) (k : Nat) : Nat :=
  ((lines.take k).map (fun l => l.data.length + 1)).sum

/-- `CodeExtractor.find_import_section` (code_extractor.py lines
420-457).  The source guards `end_pos` with `if import_end` (line 451);
whenever a start exists the end is a positive line count, so the
degenerate branch keeps the start position, as in the source. -/
def find_import_section (code : String) (return_char_positions : Bool) :
    Except String (Option ImportSection) :=
  let lines := splitLines code
  match findImportSpanGo lines 0 none none with
  | (some import_start, importEndOpt) =>
    if return_char_positions then
      let start_pos := charOffsetOfLine lines import_start
      let end_pos :=
        match importEndOpt with
        | some e => if e ≠ 0 then charOffsetOfLine lines e else start_pos
        | none => start_pos
      Except.ok (some (ImportSection.charSpan start_pos end_pos))
    else
      Except.ok (some (ImportSection.lineSpan import_start
        (importEndOpt.getD 0)))
  | (none, _) => Except.ok none

/-- Result of `get_code_complexity`. -/
structure CodeComplexity where
  function_count : Nat
  class_count : Nat
  line_count : Nat
  is_complex : Bool
deriving DecidableEq, Repr, Inhabited

/-- `CodeExtractor.get_code_complexity` (code_extractor.py lines
331-360); `except SyntaxError` yields zero counts with the line count. -/
def get_code_complexity (parse : String → Except String (List PyNode))
    (code : String) : Except String CodeComplexity :=
  match parse code with
  | Except.ok tree =>
    let function_count := tree.countP (fun n =>
      match n with
      | PyNode.funcDef _ _ _ _ => true
      | _ => false)
    let class_count := tree.countP (fun n =>
      match n with
      | PyNode.classDef _ => true
      | _ => false)
    Except.ok (CodeComplexity.mk function_count class_count
      (splitLines code).length (5 < function_count || 2 < class_count))
  | Except.error _ =>
    Except.ok (CodeComplexity.mk 0 0 (splitLines code).length false)

/- ===============================================================
   THEOREMS
   =============================================================== -/

theorem is_data_processing_eq_keyword_scan (code : String) :
    is_data_processing_code code =
      (!isBlankStr code
        && DATA_PROCESSING_KEYWORDS.any (dpKeywordHit (lowerChars code))) := by
  unfold is_data_processing_code
  cases hb : isBlankStr code
  · cases hp : DATA_PROCESSING_KEYWORDS.any (dpKeywordHit (lowerChars code)) <;>
      simp [hp]
  · simp

theorem dpKeywordHit_iff_amended_rule (codeLower : List Char) (kw : String) :
    dpKeywordHit codeLower kw =
      (if kw.data.contains '_' = true ∨ 4 ≤ kw.data.length
       then containsSub kw.data codeLower
       else wbMatch kw.data codeLower) := by
  unfold dpKeywordHit
  cases hc : kw.data.contains '_'
  · by_cases hl : 4 ≤ kw.data.length
    · rw [if_neg (by simp), if_pos hl, if_pos (Or.inr hl)]
    · rw [if_neg (by simp), if_neg hl,
        if_neg (fun h => h.elim (fun h1 => Bool.noConfusion h1) hl)]
  · rw [if_pos rfl, if_pos (Or.inl rfl)]

/-- Claim C2 (corrected): the claim that every single-word keyword is matched
only at word boundaries is false.  The single-word keyword `load` matches the
string `preloaded` as a plain substring although it does not occur at a word
boundary there (no data-processing keyword does), so the code classifies
`preloaded` as data processing while the spec's stated rule would not. -/
theorem c2_counterexample :
    is_data_processing_code "preloaded" = true ∧
    DATA_PROCESSING_KEYWORDS.all
      (fun kw => !wbMatch kw.data (lowerChars "preloaded")) = true ∧
    is_data_processing_code_spec "preloaded" = false := by decide

/-- Claim C2 (amended): a string is classified as data processing iff it is
non-blank and some data-processing keyword matches, where compound keywords
(containing an underscore) and single-word keywords of length at least 4
(such as `load`, `read`, `filter`) match by plain substring, and only
single-word keywords of length 3 or less match at word boundaries.
(Exploration and visualization keywords cannot veto a keyword hit.) -/
theorem c2_keyword_match_characterization (code : String) :
    is_data_processing_code code = true ↔
      isBlankStr code = false ∧
      ∃ kw ∈ DATA_PROCESSING_KEYWORDS,
        (if kw.data.contains '_' = true ∨ 4 ≤ kw.data.length
         then containsSub kw.data (lowerChars code) = true
         else wbMatch kw.data (lowerChars code) = true) := by
  rw [is_data_processing_eq_keyword_scan]
  rw [Bool.and_eq_true, Bool.not_eq_true', List.any_eq_true]
  constructor
  · rintro ⟨hb, kw, hkw, hhit⟩
    refine ⟨hb, kw, hkw, ?_⟩
    rw [dpKeywordHit_iff_amended_rule] at hhit
    by_cases hc : kw.data.contains '_' = true ∨ 4 ≤ kw.data.length
    · rw [if_pos hc] at hhit; rw [if_pos hc]; exact hhit
    · rw [if_neg hc] at hhit; rw [if_neg hc]; exact hhit
  · rintro ⟨hb, kw, hkw, hhit⟩
    refine ⟨hb, kw, hkw, ?_⟩
    rw [dpKeywordHit_iff_amended_rule]
    by_cases hc : kw.data.contains '_' = true ∨ 4 ≤ kw.data.length
    · rw [if_pos hc] at hhit ⊢; exact hhit
    · rw [if_neg hc] at hhit ⊢; exact hhit

/-- Claim C3 (corrected): the claim fails for unsuccessful entries.  A failed
execution entry whose `output_files` list is non-empty is not included in the
filtered result. -/
theorem c3_counterexample :
    failedWithOutput.output_files ≠ [] ∧
    failedWithOutput ∉ filter_executions [failedWithOutput] := by decide

/-- Claim C3 (amended): every successful entry with non-blank code whose
`output_files` list is non-empty appears in the filtered result regardless of
its keyword content (in particular when its keywords suggest exploration). -/
theorem c3_output_files_entry_kept (l : List ExecEntry) (e : ExecEntry)
    (hmem : e ∈ l) (hs : e.success = true) (hc : isBlankStr e.code = false)
    (ho : e.output_files ≠ []) : e ∈ filter_executions l := by
  unfold filter_executions
  rw [List.mem_filter]
  refine ⟨hmem, ?_⟩
  unfold keepEntry
  rw [hs, hc]
  simp [List.length_pos.mpr ho]

theorem c3_output_files_entry_kept_witness :
    exploringWithOutput ∈ [exploringWithOutput] ∧
    exploringWithOutput.success = true ∧
    isBlankStr exploringWithOutput.code = false ∧
    exploringWithOutput.output_files ≠ [] ∧
    is_data_processing_code exploringWithOutput.code = false ∧
    exploringWithOutput ∈ filter_executions [exploringWithOutput] :=
  ⟨by decide, by decide, by decide, by decide, by decide,
   c3_output_files_entry_kept [exploringWithOutput] exploringWithOutput
     (by decide) (by decide) (by decide) (by decide)⟩

/-- Claim C10 (confirmed): the result of `CodeFilter.filter_executions` is a
sublist of its input: every output element is an input element, taken at most
once per occurrence, in the input's relative order. -/
theorem c10_filter_executions_sublist (executions : List ExecEntry) :
    (filter_executions executions).Sublist executions :=
  List.filter_sublist executions

/-- Claim C7 (confirmed): with a configured work directory,
`track_execution` persists a JSON entry whose `result` is the first
10,000 characters of the `result` argument (with `result_length`
recording the full length), keeps the full untruncated result in the
in-memory execution history, and returns the saved JSON file's path. -/
theorem c7_track_execution_persists_truncated
    (st : TrackerState) (dir : BlocksDir) (code result : String) (success : Bool)
    (input_files output_files : List String) (error_type : Option String)
    (stamp : ClockStamp) (h : st.hasBlocksDir = true) :
    ∃ sd : SaveData,
      (track_execution st dir code result success input_files output_files
          error_type stamp).2.1.jsonFiles
        = dir.jsonFiles ++
            [("execute_" ++ stamp.fmt ++ "_"
                ++ pad4 (st.execution_history.length + 1) ++ ".json", sd)]
      ∧ sd.result.data = result.data.take RESULT_TRUNCATE_LENGTH
      ∧ sd.result_length = result.data.length
      ∧ (track_execution st dir code result success input_files output_files
            error_type stamp).1.execution_history
          = st.execution_history
              ++ [ExecEntry.mk code result success stamp.iso error_type
                    input_files output_files]
      ∧ (track_execution st dir code result success input_files output_files
            error_type stamp).2.2
          = some ("execute_" ++ stamp.fmt ++ "_"
              ++ pad4 (st.execution_history.length + 1) ++ ".json") := by
  refine ⟨SaveData.mk (st.execution_history.length + 1) stamp.iso success
      error_type code (takeChars RESULT_TRUNCATE_LENGTH result)
      result.data.length input_files output_files
      (SaveMetadata.mk code.data.length (!success) input_files.length
        output_files.length), ?_, ?_, ?_, ?_, ?_⟩ <;>
    simp [track_execution, save_execute_block, h, takeChars]

theorem c7_track_execution_persists_truncated_witness :
    (freshTracker "20250101_000000").hasBlocksDir = true ∧
    ∃ sd : SaveData,
      (track_execution (freshTracker "20250101_000000") emptyBlocksDir
          "x = 1" "ok" true [] [] none
          (ClockStamp.mk "2025-01-01T00:00:01" "20250101_000001_000000")).2.1.jsonFiles
        = emptyBlocksDir.jsonFiles ++
            [("execute_" ++ "20250101_000001_000000" ++ "_"
                ++ pad4 ((freshTracker "20250101_000000").execution_history.length + 1)
                ++ ".json", sd)]
      ∧ sd.result.data = "ok".data.take RESULT_TRUNCATE_LENGTH
      ∧ sd.result_length = "ok".data.length
      ∧ (track_execution (freshTracker "20250101_000000") emptyBlocksDir
            "x = 1" "ok" true [] [] none
            (ClockStamp.mk "2025-01-01T00:00:01" "20250101_000001_000000")).1.execution_history
          = (freshTracker "20250101_000000").execution_history
              ++ [ExecEntry.mk "x = 1" "ok" true "2025-01-01T00:00:01" none [] []]
      ∧ (track_execution (freshTracker "20250101_000000") emptyBlocksDir
            "x = 1" "ok" true [] [] none
            (ClockStamp.mk "2025-01-01T00:00:01" "20250101_000001_000000")).2.2
          = some ("execute_" ++ "20250101_000001_000000" ++ "_"
              ++ pad4 ((freshTracker "20250101_000000").execution_history.length + 1)
              ++ ".json") :=
  ⟨by decide,
   c7_track_execution_persists_truncated (freshTracker "20250101_000000")
     emptyBlocksDir "x = 1" "ok" true [] [] none
     (ClockStamp.mk "2025-01-01T00:00:01" "20250101_000001_000000") (by decide)⟩

theorem track_execution_jsonFiles_extends (st : TrackerState) (dir : BlocksDir)
    (code result : String) (success : Bool)
    (input_files output_files : List String) (error_type : Option String)
    (stamp : ClockStamp) :
    ∃ d, (track_execution st dir code result success input_files output_files
        error_type stamp).2.1.jsonFiles = dir.jsonFiles ++ d := by
  cases hB : st.hasBlocksDir
  · exact ⟨[], by simp [track_execution, save_execute_block, hB]⟩
  · exact ⟨[("execute_" ++ stamp.fmt ++ "_"
        ++ pad4 (st.execution_history.length + 1) ++ ".json",
      SaveData.mk (st.execution_history.length + 1) stamp.iso success
        error_type code (takeChars RESULT_TRUNCATE_LENGTH result)
        result.data.length input_files output_files
        (SaveMetadata.mk code.data.length (!success) input_files.length
          output_files.length))],
      by simp [track_execution, save_execute_block, hB]⟩

theorem runCalls_jsonFiles_extends (cs : List CallArgs) :
    ∀ st dir, ∃ tl, (runCalls st dir cs).2.jsonFiles = dir.jsonFiles ++ tl := by
  induction cs with
  | nil => intro st dir; exact ⟨[], by simp [runCalls]⟩
  | cons c cs ih =>
    intro st dir
    obtain ⟨d, hd⟩ := track_execution_jsonFiles_extends st dir c.code c.result
      c.success c.input_files c.output_files c.error_type c.stamp
    obtain ⟨tl, htl⟩ := ih
      (track_execution st dir c.code c.result c.success
        c.input_files c.output_files c.error_type c.stamp).1
      (track_execution st dir c.code c.result c.success
        c.input_files c.output_files c.error_type c.stamp).2.1
    refine ⟨d ++ tl, ?_⟩
    have hstep : runCalls st dir (c :: cs)
        = runCalls (track_execution st dir c.code c.result c.success
            c.input_files c.output_files c.error_type c.stamp).1
          (track_execution st dir c.code c.result c.success
            c.input_files c.output_files c.error_type c.stamp).2.1 cs := rfl
    rw [hstep, htl, hd, List.append_assoc]

theorem runCalls_saved_index (cs : List CallArgs) :
    ∀ st dir i, st.hasBlocksDir = true → i < cs.length →
      ((runCalls st dir cs).2.jsonFiles.getD (dir.jsonFiles.length + i)
          default).2.execution_index
        = st.execution_history.length + i + 1
      ∧ ((runCalls st dir cs).2.jsonFiles.getD (dir.jsonFiles.length + i)
          default).1
        = "execute_" ++ (cs.getD i default).stamp.fmt ++ "_"
            ++ pad4 (st.execution_history.length + i + 1) ++ ".json" := by
  induction cs with
  | nil => intro st dir i _ hi; exact absurd hi (by simp)
  | cons c cs ih =>
    intro st dir i hB hi
    have hstep : runCalls st dir (c :: cs)
        = runCalls (track_execution st dir c.code c.result c.success
            c.input_files c.output_files c.error_type c.stamp).1
          (track_execution st dir c.code c.result c.success
            c.input_files c.output_files c.error_type c.stamp).2.1 cs := rfl
    have hdir1 : (track_execution st dir c.code c.result c.success
        c.input_files c.output_files c.error_type c.stamp).2.1.jsonFiles
        = dir.jsonFiles ++
            [("execute_" ++ c.stamp.fmt ++ "_"
                ++ pad4 (st.execution_history.length + 1) ++ ".json",
              SaveData.mk (st.execution_history.length + 1) c.stamp.iso c.success
                c.error_type c.code (takeChars RESULT_TRUNCATE_LENGTH c.result)
                c.result.data.length c.input_files c.output_files
                (SaveMetadata.mk c.code.data.length (!c.success)
                  c.input_files.length c.output_files.length))] := by
      simp [track_execution, save_execute_block, hB]
    have hst1hB : (track_execution st dir c.code c.result c.success
        c.input_files c.output_files c.error_type c.stamp).1.hasBlocksDir = true := by
      simpa [track_execution] using hB
    have hst1len : (track_execution st dir c.code c.result c.success
        c.input_files c.output_files c.error_type c.stamp).1.execution_history.length
        = st.execution_history.length + 1 := by
      simp [track_execution]
    cases i with
    | zero =>
      obtain ⟨tl, htl⟩ := runCalls_jsonFiles_extends cs
        (track_execution st dir c.code c.result c.success
          c.input_files c.output_files c.error_type c.stamp).1
        (track_execution st dir c.code c.result c.success
          c.input_files c.output_files c.error_type c.stamp).2.1
      rw [hstep, htl, hdir1, List.append_assoc]
      rw [List.getD_append_right _ _ _ _ (by simp)]
      simp
    | succ j =>
      have hj : j < cs.length := by
        simpa using Nat.lt_of_succ_lt_succ hi
      have := ih (track_execution st dir c.code c.result c.success
          c.input_files c.output_files c.error_type c.stamp).1
        (track_execution st dir c.code c.result c.success
          c.input_files c.output_files c.error_type c.stamp).2.1
        j hst1hB hj
      rw [hstep]
      have hlen1 : (track_execution st dir c.code c.result c.success
          c.input_files c.output_files c.error_type c.stamp).2.1.jsonFiles.length
          = dir.jsonFiles.length + 1 := by
        rw [hdir1]; simp
      rw [hlen1, hst1len] at this
      have harith : dir.jsonFiles.length + 1 + j = dir.jsonFiles.length + (j + 1) := by
        omega
      rw [harith] at this
      have harith2 : st.execution_history.length + 1 + j + 1
          = st.execution_history.length + (j + 1) + 1 := by
        omega
      rw [harith2] at this
      simpa using this

/-- Claim C9 (confirmed): for the N-th `track_execution` call of a session
(counting from 1), the persisted journal entry records
`execution_index = N` and the filename's index segment is N zero-padded to
four digits — the entry is appended to the in-memory history before the
index is computed as its length, so on-disk indices are 1-based. -/
theorem c9_on_disk_indices_one_based (sessionStart : String)
    (cs : List CallArgs) (i : Nat) (hi : i < cs.length) :
    ((runCalls (freshTracker sessionStart) emptyBlocksDir cs).2.jsonFiles.getD i
        default).2.execution_index = i + 1
    ∧ ((runCalls (freshTracker sessionStart) emptyBlocksDir cs).2.jsonFiles.getD i
        default).1
      = "execute_" ++ (cs.getD i default).stamp.fmt ++ "_"
          ++ pad4 (i + 1) ++ ".json" := by
  have := runCalls_saved_index cs (freshTracker sessionStart) emptyBlocksDir i
    rfl hi
  simpa [freshTracker, emptyBlocksDir] using this

theorem c9_on_disk_indices_one_based_witness :
    0 < ([CallArgs.mk "x = 1" "ok" true [] [] none
        (ClockStamp.mk "2025-01-01T00:00:01" "20250101_000001_000000")] : List CallArgs).length
    ∧ (((runCalls (freshTracker "20250101_000000") emptyBlocksDir
          [CallArgs.mk "x = 1" "ok" true [] [] none
            (ClockStamp.mk "2025-01-01T00:00:01" "20250101_000001_000000")]).2.jsonFiles.getD 0
          default).2.execution_index = 0 + 1
        ∧ (((runCalls (freshTracker "20250101_000000") emptyBlocksDir
            [CallArgs.mk "x = 1" "ok" true [] [] none
              (ClockStamp.mk "2025-01-01T00:00:01" "20250101_000001_000000")]).2.jsonFiles.getD 0
            default).1
          = "execute_"
              ++ (([CallArgs.mk "x = 1" "ok" true [] [] none
                    (ClockStamp.mk "2025-01-01T00:00:01" "20250101_000001_000000")] :
                    List CallArgs).getD 0 default).stamp.fmt ++ "_"
              ++ pad4 (0 + 1) ++ ".json")) :=
  ⟨by decide,
   c9_on_disk_indices_one_based "20250101_000000"
     [CallArgs.mk "x = 1" "ok" true [] [] none
       (ClockStamp.mk "2025-01-01T00:00:01" "20250101_000001_000000")] 0 (by decide)⟩

theorem lexLe_cons_iff (x y : Char) (xs ys : List Char) :
    lexLe (x :: xs) (y :: ys) = true ↔
      (x.toNat < y.toNat ∨ (x.toNat = y.toNat ∧ lexLe xs ys = true)) := by
  simp only [lexLe]
  by_cases h1 : x.toNat < y.toNat
  · simp [h1]
  · by_cases h2 : y.toNat < x.toNat
    · rw [if_neg h1, if_pos h2]
      constructor
      · intro hf; exact Bool.noConfusion hf
      · rintro (h | ⟨he, _⟩) <;> omega
    · rw [if_neg h1, if_neg h2]
      constructor
      · intro h; exact Or.inr ⟨by omega, h⟩
      · rintro (h | ⟨_, h⟩)
        · omega
        · exact h

theorem lexLe_trans :
    ∀ (a b c : List Char), lexLe a b = true → lexLe b c = true →
      lexLe a c = true := by
  intro a
  induction a with
  | nil => intro b c _ _; rfl
  | cons x xs ih =>
    intro b c hab hbc
    cases b with
    | nil => exact absurd hab (by simp [lexLe])
    | cons y ys =>
      cases c with
      | nil => exact absurd hbc (by simp [lexLe])
      | cons z zs =>
        rw [lexLe_cons_iff] at hab hbc ⊢
        rcases hab with h1 | ⟨he1, hr1⟩
        · rcases hbc with h2 | ⟨he2, hr2⟩
          · exact Or.inl (by omega)
          · exact Or.inl (by omega)
        · rcases hbc with h2 | ⟨he2, hr2⟩
          · exact Or.inl (by omega)
          · exact Or.inr ⟨by omega, ih ys zs hr1 hr2⟩

theorem session_window_mono (name s1 s2 : String)
    (hs : lexLe s1.data s2.data = true)
    (h : is_file_from_current_session name s2 = true) :
    is_file_from_current_session name s1 = true := by
  simp only [is_file_from_current_session] at h ⊢
  by_cases hp : 2 ≤ (splitOnChar '_'
      (removeAllStr ".json" (removeAllStr "execute_" name.data))).length
  · rw [if_pos hp] at h
    rw [if_pos hp]
    exact lexLe_trans _ _ _ hs h
  · rw [if_neg hp]

/-- Claim C4 (corrected): the claim of disjoint session windows is false.
The session filter only enforces a lower bound (`file timestamp >= session
start`), so two trackers with distinct overlapping session-start times both
load the same on-disk block written after both starts: the windows are
nested, not disjoint. -/
theorem c4_counterexample :
    sessionStartA ≠ sessionStartB ∧
    overlapEntry ∈ load_execute_blocks_from_files overlapDir sessionStartA true ∧
    overlapEntry ∈ load_execute_blocks_from_files overlapDir sessionStartB true := by
  decide

/-- Claim C4 (amended): `load_execute_blocks_from_files(filter_by_session=True)`
returns the on-disk entries whose filename timestamp is bounded below by the
tracker's `session_start_time` (files with unparseable names are included
fail-open); consequently, for two trackers over the same directory, the one
with the later session start returns a subset of the one with the earlier
start — the results are nested, not disjoint. -/
theorem c4_session_window_lower_bound_nested (dirFiles : List BlockFile)
    (s1 s2 : String) (e : ExecEntry)
    (hs : lexLe s1.data s2.data = true)
    (he : e ∈ load_execute_blocks_from_files dirFiles s2 true) :
    e ∈ load_execute_blocks_from_files dirFiles s1 true ∧
    ∃ f, f ∈ dirFiles ∧ f.entry = some e ∧
      is_file_from_current_session f.name s2 = true := by
  simp only [load_execute_blocks_from_files, if_pos] at he ⊢
  rw [(List.perm_insertionSort entryTimestampLe _).mem_iff] at he
  rw [List.mem_filterMap] at he
  obtain ⟨f, hf, hfe⟩ := he
  rw [List.mem_filter] at hf
  obtain ⟨hfs, hpred⟩ := hf
  rw [(List.perm_insertionSort fileNameLe _).mem_iff] at hfs
  constructor
  · rw [(List.perm_insertionSort entryTimestampLe _).mem_iff,
      List.mem_filterMap]
    refine ⟨f, ?_, hfe⟩
    rw [List.mem_filter]
    refine ⟨?_, session_window_mono f.name s1 s2 hs hpred⟩
    rw [(List.perm_insertionSort fileNameLe _).mem_iff]
    exact hfs
  · exact ⟨f, hfs, hfe, hpred⟩

/-- Claim C5 (confirmed): every CodeExtractor operation returns a value
(empty or regex-best-effort) on every input string, including malformed
Python source, and never raises: the parser's SyntaxError — the only
exception source in these operations — is caught by every AST-based
operation, and the regex-driven operations have no exception source. -/
theorem c5_extractor_total_on_any_input
    (parse : String → Except String (List PyNode))
    (availableModule : String → Bool)
    (reFinditer : String → String → List ReMatch)
    (code : String) (filter_unavailable return_char_positions : Bool) :
    (extract_imports parse availableModule code filter_unavailable).isOk = true
    ∧ (extract_functions parse code).isOk = true
    ∧ (identify_hardcoded_paths reFinditer code).isOk = true
    ∧ (extract_file_operations reFinditer code).isOk = true
    ∧ (extract_output_files reFinditer code).isOk = true
    ∧ (find_import_section code return_char_positions).isOk = true
    ∧ (get_code_complexity parse code).isOk = true := by
  refine ⟨?_, ?_, rfl, rfl, rfl, ?_, ?_⟩
  · unfold extract_imports
    cases parse code <;> rfl
  · unfold extract_functions
    cases parse code <;> rfl
  · simp only [find_import_section]
    rcases findImportSpanGo (splitLines code) 0 none none with ⟨s, e⟩
    cases s
    · rfl
    · cases return_char_positions <;> rfl
  · unfold get_code_complexity
    cases parse code <;> rfl

theorem isPrefixOf_self (l : List Char) : l.isPrefixOf l = true := by
  induction l with
  | nil => rfl
  | cons c cs ih => simp [List.isPrefixOf, ih]

theorem containsSub_self (x : List Char) : containsSub x x = true := by
  unfold containsSub
  rw [List.any_eq_true]
  refine ⟨0, by simp, ?_⟩
  unfold subAt
  simp [isPrefixOf_self]

theorem foldl_append_nil {α : Type} (g : α → List ImportFix) (l : List α) :
    ∀ acc, (∀ x ∈ l, g x = []) → l.foldl (fun fx x => fx ++ g x) acc = acc := by
  induction l with
  | nil => intro acc _; rfl
  | cons x xs ih =>
    intro acc h
    rw [List.foldl_cons, h x (List.mem_cons_self x xs), List.append_nil]
    exact ih acc (fun y hy => h y (List.mem_cons_of_mem x hy))

theorem step4Elem_nil (s : WalkState) (m : String)
    (h : (match dictLookup module_mappings m with
      | none => true
      | some _ =>
        match dictLookup s.imports_by_alias m with
        | some r => r.target == m
        | none => false) = true) :
    step4Elem s m = [] := by
  unfold step4Elem
  cases hmm : dictLookup module_mappings m with
  | none => rfl
  | some ci =>
    rw [hmm] at h
    cases hba : dictLookup s.imports_by_alias m with
    | none => rw [hba] at h; exact absurd h (by simp)
    | some r =>
      rw [hba] at h
      simp at h
      simp [hba, h]

theorem step5Elem_nil (s : WalkState) (a : String)
    (h : (match dictLookup alias_mappings a with
      | none => true
      | some em_ci =>
        match dictLookup s.imports_by_alias a with
        | some r => r.target == em_ci.1
        | none => false) = true) :
    step5Elem s a = [] := by
  unfold step5Elem
  cases hmm : dictLookup alias_mappings a with
  | none => rfl
  | some em_ci =>
    rw [hmm] at h
    cases hba : dictLookup s.imports_by_alias a with
    | none => rw [hba] at h; exact absurd h (by simp)
    | some r =>
      rw [hba] at h
      simp at h
      simp [hba, h, containsSub_self]

theorem step6Elem_nil (s : WalkState) (c : String)
    (h : (match dictLookup class_mappings c with
      | none => true
      | some _ => (dictLookup s.imports_by_alias c).isSome) = true) :
    step6Elem s c = [] := by
  unfold step6Elem
  cases hmm : dictLookup class_mappings c with
  | none => rfl
  | some ci =>
    rw [hmm] at h
    cases hba : dictLookup s.imports_by_alias c with
    | none => rw [hba] at h; exact absurd h (by simp)
    | some r => simp [hba]

theorem detectFromState_nil_of_correct (s : WalkState)
    (hc : aliasesCorrect s = true) : detectFromState s = [] := by
  unfold aliasesCorrect at hc
  rw [Bool.and_eq_true, Bool.and_eq_true] at hc
  obtain ⟨⟨h4, h5⟩, h6⟩ := hc
  unfold detectFromState
  rw [foldl_append_nil _ _ _
      (fun m hm => step4Elem_nil s m (by simpa using List.all_eq_true.mp h4 m hm)),
    foldl_append_nil _ _ _
      (fun a ha => step5Elem_nil s a (by simpa using List.all_eq_true.mp h5 a ha)),
    foldl_append_nil _ _ _
      (fun c hcm => step6Elem_nil s c (by simpa using List.all_eq_true.mp h6 c hcm))]
  rfl

/-- Claim C6 (confirmed): applying the AST-driven alias/import
reconciliation to code whose imports and aliases are already correct
(every used mapped base name canonically imported, every called mapped
class imported) detects no fixes, and `_apply_rule_based_fixes` returns
the code byte-identically. -/
theorem c6_rule_based_fixes_fixed_point
    (parse : String → Except String (List PyNode)) (code : String)
    (nodes : List PyNode) (hp : parse code = Except.ok nodes)
    (hc : aliasesCorrect (walkCollect nodes emptyWalkState) = true) :
    detect_alias_mismatches_ast parse code = [] ∧
    apply_rule_based_fixes parse code = code := by
  have hdet : detect_alias_mismatches_ast parse code = [] := by
    unfold detect_alias_mismatches_ast
    rw [hp]
    exact detectFromState_nil_of_correct _ hc
  refine ⟨hdet, ?_⟩
  unfold apply_rule_based_fixes
  rw [hdet]
  rfl

theorem c6_rule_based_fixes_fixed_point_witness :
    correctDemoParse correctDemoCode = Except.ok correctDemoNodes ∧
    aliasesCorrect (walkCollect correctDemoNodes emptyWalkState) = true ∧
    (detect_alias_mismatches_ast correctDemoParse correctDemoCode = [] ∧
     apply_rule_based_fixes correctDemoParse correctDemoCode = correctDemoCode) :=
  ⟨rfl, by decide,
   c6_rule_based_fixes_fixed_point correctDemoParse correctDemoCode
     correctDemoNodes rfl (by decide)⟩

theorem llmFixLoop_finalized_mem_true (env : SaveEnv) :
    ∀ r a v vals, (llmFixLoop env r a v vals).1 = SaveOutcome.finalized →
      true ∈ (llmFixLoop env r a v vals).2 := by
  intro r
  induction r with
  | zero => intro a v vals h; exact absurd h (by simp [llmFixLoop])
  | succ r ih =>
    intro a v vals h
    simp only [llmFixLoop] at h ⊢
    by_cases hd : env.llmFixDistinct a = true
    · rw [if_pos hd] at h ⊢
      by_cases hv : env.validateResult v = true
      · rw [if_pos hv] at h ⊢; simp
      · rw [if_neg hv] at h ⊢; exact ih _ _ _ h
    · rw [if_neg hd] at h ⊢; exact ih _ _ _ h

theorem llmFixLoop_leftTmp_all_false (env : SaveEnv) :
    ∀ r a v vals, (∀ b ∈ vals, b = false) →
      (llmFixLoop env r a v vals).1 = SaveOutcome.leftTmp →
      ∀ b ∈ (llmFixLoop env r a v vals).2, b = false := by
  intro r
  induction r with
  | zero => intro a v vals hall _; simpa [llmFixLoop] using hall
  | succ r ih =>
    intro a v vals hall h
    simp only [llmFixLoop] at h ⊢
    by_cases hd : env.llmFixDistinct a = true
    · rw [if_pos hd] at h ⊢
      by_cases hv : env.validateResult v = true
      · rw [if_pos hv] at h; exact absurd h (by simp)
      · rw [if_neg hv] at h ⊢
        refine ih _ _ _ ?_ h
        intro b hb
        rcases List.mem_append.mp hb with h1 | h2
        · exact hall b h1
        · simpa using h2
    · rw [if_neg hd] at h ⊢; exact ih _ _ _ hall h

theorem llmFixLoop_iff_mem_true (env : SaveEnv) (r a v : Nat) (vals : List Bool)
    (hall : ∀ b ∈ vals, b = false) :
    ((llmFixLoop env r a v vals).1 == SaveOutcome.finalized) = true ↔
      true ∈ (llmFixLoop env r a v vals).2 := by
  cases hR : (llmFixLoop env r a v vals).1
  · constructor
    · intro _; exact llmFixLoop_finalized_mem_true env r a v vals hR
    · intro _; rfl
  · constructor
    · intro hfalse; exact absurd hfalse (by decide)
    · intro hmem
      exact absurd (llmFixLoop_leftTmp_all_false env r a v vals hall hR true hmem)
        (by decide)

/-- Claim C1 (corrected): the claimed iff is false.  In simple mode with
a configured validator, non-empty expected outputs, and every validation
failing, the artifact still ends up without the `.tmp.py` suffix: simple
mode saves under the final name and finalizes as-is after failed
validation, while the claim's right-hand side is false. -/
theorem c1_counterexample :
    nonTmpArtifactExists SaveMode.simple
        (save_and_validate_run c1Env SaveMode.simple).1 = true ∧
    ¬(c1Env.hasValidator = false
      ∨ true ∈ (save_and_validate_run c1Env SaveMode.simple).2
      ∨ SaveMode.simple = SaveMode.notebook) := by decide

/-- Claim C1 (amended): after a `save_and_validate_workflow` run whose
save step produced an artifact, an artifact file without the `.tmp.py`
suffix exists iff (a) no validator was configured, or (b) the save mode is
notebook, or (c) the save mode is simple, or (d) the expected-outputs set
was empty, or (e) validation returned valid=True at some point; only an
LLM-mode run with a validator, non-empty expected outputs and no
successful validation leaves the artifact as a `.tmp.py` file. -/
theorem c1_artifact_finalization (env : SaveEnv) (mode : SaveMode) :
    nonTmpArtifactExists mode (save_and_validate_run env mode).1 = true ↔
      (env.hasValidator = false ∨ mode = SaveMode.notebook
        ∨ mode = SaveMode.simple ∨ env.expectedOutputsNonempty = false
        ∨ true ∈ (save_and_validate_run env mode).2) := by
  cases hV : env.hasValidator
  · simp [save_and_validate_run, hV, nonTmpArtifactExists, artifactSavedAsTmp]
  · cases mode
    case notebook =>
      simp [save_and_validate_run, hV, nonTmpArtifactExists, artifactSavedAsTmp]
    case simple =>
      simp [nonTmpArtifactExists, artifactSavedAsTmp]
    case llm =>
      cases hE : env.expectedOutputsNonempty
      · simp [save_and_validate_run, hV, hE, nonTmpArtifactExists,
          artifactSavedAsTmp]
      · have hL : ∀ out, nonTmpArtifactExists SaveMode.llm out
            = (out == SaveOutcome.finalized) := fun _ => rfl
        rw [hL]
        have hrun : save_and_validate_run env SaveMode.llm
            = if env.validateResult 0 = true then (SaveOutcome.finalized, [true])
              else if env.ruleFixChanged = true then
                (if env.validateResult 1 = true then
                  (SaveOutcome.finalized, [false, true])
                 else llmFixLoop env env.maxFixAttempts 1 2 [false, false])
              else llmFixLoop env env.maxFixAttempts 1 1 [false] := by
          simp [save_and_validate_run, hV, hE]
        rw [hrun]
        have hside : ∀ (P : Prop),
            (true = false ∨ SaveMode.llm = SaveMode.notebook
              ∨ SaveMode.llm = SaveMode.simple
              ∨ true = false ∨ P) ↔ P := fun P => by simp
        rw [hside]
        by_cases h0 : env.validateResult 0 = true
        · rw [if_pos h0]; simp
        · rw [if_neg h0]
          by_cases hr : env.ruleFixChanged = true
          · rw [if_pos hr]
            by_cases h1 : env.validateResult 1 = true
            · rw [if_pos h1]; simp
            · rw [if_neg h1]
              exact llmFixLoop_iff_mem_true env env.maxFixAttempts 1 2
                [false, false] (by simp)
          · rw [if_neg hr]
            exact llmFixLoop_iff_mem_true env env.maxFixAttempts 1 1
              [false] (by simp)

theorem dictLookup_dictInsert_self {α : Type} (k : String) (v : α)
    (m : List (String × α)) :
    dictLookup (dictInsert k v m) k = some v := by
  induction m with
  | nil => simp [dictInsert, dictLookup]
  | cons p rest ih =>
    obtain ⟨k0, v0⟩ := p
    by_cases h : k0 = k
    · simp [dictInsert, dictLookup, h]
    · simp [dictInsert, dictLookup, h, ih]

theorem dictLookup_dictInsert_ne {α : Type} (k k' : String) (v : α)
    (m : List (String × α)) (h : k' ≠ k) :
    dictLookup (dictInsert k' v m) k = dictLookup m k := by
  induction m with
  | nil => simp [dictInsert, dictLookup, h]
  | cons p rest ih =>
    obtain ⟨k0, v0⟩ := p
    by_cases h0 : k0 = k'
    · simp [dictInsert, dictLookup, h0, h]
    · simp [dictInsert, dictLookup, h0, ih]

theorem foldl_compareStep_lookup_preserved (sha256 : PyBytes → String)
    (actual : List (String × ActualContent)) (exp : List (String × PyBytes))
    (ep : String) :
    ∀ acc, (∀ pr ∈ exp, pr.1 ≠ ep) →
      dictLookup (exp.foldl (compareStep sha256 actual) acc).1 ep
        = dictLookup acc.1 ep := by
  induction exp with
  | nil => intro acc _; rfl
  | cons pr rest ih =>
    intro acc hk
    rw [List.foldl_cons]
    rw [ih _ (fun q hq => hk q (List.mem_cons_of_mem pr hq))]
    exact dictLookup_dictInsert_ne ep pr.1 _ acc.1 (hk pr (List.mem_cons_self pr rest))

theorem foldl_compareStep_lookup (sha256 : PyBytes → String)
    (actual : List (String × ActualContent)) (exp : List (String × PyBytes))
    (ep : String) (ec : PyBytes) :
    ∀ acc, (ep, ec) ∈ exp → (exp.map Prod.fst).Nodup →
      dictLookup (exp.foldl (compareStep sha256 actual) acc).1 ep
        = some (comparisonFor sha256 actual (ep, ec)) := by
  induction exp with
  | nil => intro acc h _; cases h
  | cons pr rest ih =>
    intro acc hmem hnd
    rw [List.foldl_cons]
    rw [List.map_cons] at hnd
    have hnotin := (List.nodup_cons.mp hnd).1
    have hnd' := (List.nodup_cons.mp hnd).2
    rcases List.mem_cons.mp hmem with heq | hrest
    · have hpr1 : pr.1 = ep := (congrArg Prod.fst heq).symm
      have hkeys : ∀ q ∈ rest, q.1 ≠ ep := by
        intro q hq hqe
        apply hnotin
        rw [hpr1, ← hqe]
        exact List.mem_map_of_mem Prod.fst hq
      rw [foldl_compareStep_lookup_preserved sha256 actual rest ep _ hkeys]
      have hstep : (compareStep sha256 actual acc pr).1
          = dictInsert pr.1 (comparisonFor sha256 actual pr) acc.1 := rfl
      rw [hstep, ← heq]
      exact dictLookup_dictInsert_self ep _ acc.1
    · exact ih _ hrest hnd'

/-- Claim C8 (confirmed): in `compare_outputs`, for every expected output
file whose content exceeds 100 MB and for which an actual counterpart with
the same basename exists, the per-file match verdict is the comparison of
SHA-256 digests (the stored digest when the actual side is a digest, the
digest of its bytes otherwise), not direct byte equality. -/
theorem c8_large_expected_compared_by_sha256 (sha256 : PyBytes → String)
    (actual : List (String × ActualContent)) (expected : List (String × PyBytes))
    (ep : String) (ec : PyBytes) (ac : ActualContent)
    (hmem : (ep, ec) ∈ expected)
    (hnd : (expected.map Prod.fst).Nodup)
    (hsize : MAX_IN_MEMORY_SIZE < ec.length)
    (hfind : findActualContent actual (pathName ep) = some ac) :
    ∃ cmp : FileComparison,
      dictLookup (compare_outputs sha256 actual expected).file_comparisons ep
        = some cmp ∧
      (cmp.isMatch = true ↔ digestOf sha256 ac = sha256 ec) := by
  refine ⟨comparisonFor sha256 actual (ep, ec), ?_, ?_⟩
  · simp only [compare_outputs]
    exact foldl_compareStep_lookup sha256 actual expected ep ec _ hmem hnd
  · have h1 : comparisonFor sha256 actual (ep, ec)
        = compareContent sha256 ac ec := by
      simp [comparisonFor, hfind]
    rw [h1]
    cases ac with
    | bytes b =>
      simp only [compareContent]
      rw [if_pos hsize]
      by_cases he : sha256 ec = sha256 b
      · simp [he, digestOf]
      · have hne : sha256 b ≠ sha256 ec := fun hc => he hc.symm
        simp [he, digestOf, hne]
    | digest s =>
      simp only [compareContent]
      by_cases he : s = sha256 ec <;> simp [he, digestOf]

theorem c8_large_expected_compared_by_sha256_witness :
    (("y.csv", bigExpectedContent) ∈ [("y.csv", bigExpectedContent)]) ∧
    (([("y.csv", bigExpectedContent)].map
        (Prod.fst (α := String) (β := PyBytes))).Nodup) ∧
    MAX_IN_MEMORY_SIZE < bigExpectedContent.length ∧
    findActualContent [("y.csv", ActualContent.digest "sha-104857601")]
      (pathName "y.csv") = some (ActualContent.digest "sha-104857601") ∧
    (∃ cmp : FileComparison,
      dictLookup (compare_outputs dummySha
          [("y.csv", ActualContent.digest "sha-104857601")]
          [("y.csv", bigExpectedContent)]).file_comparisons "y.csv"
        = some cmp ∧
      (cmp.isMatch = true ↔
        digestOf dummySha (ActualContent.digest "sha-104857601")
          = dummySha bigExpectedContent)) :=
  ⟨List.mem_cons_self _ _, by simp,
   by simp only [bigExpectedContent, List.length_replicate]; omega,
   by decide,
   c8_large_expected_compared_by_sha256 dummySha
     [("y.csv", ActualContent.digest "sha-104857601")]
     [("y.csv", bigExpectedContent)] "y.csv" bigExpectedContent
     (ActualContent.digest "sha-104857601")
     (List.mem_cons_self _ _) (by simp)
     (by simp only [bigExpectedContent, List.length_replicate]; omega)
     (by decide)⟩

theorem c4_session_window_lower_bound_nested_witness :
    lexLe sessionStartA.data sessionStartB.data = true ∧
    overlapEntry ∈ load_execute_blocks_from_files overlapDir sessionStartB true ∧
    (overlapEntry ∈ load_execute_blocks_from_files overlapDir sessionStartA true ∧
     ∃ f, f ∈ overlapDir ∧ f.entry = some overlapEntry ∧
       is_file_from_current_session f.name sessionStartB = true) :=
  ⟨by decide, by decide,
   c4_session_window_lower_bound_nested overlapDir sessionStartA sessionStartB
     overlapEntry (by decide) (by decide)⟩

end Biomni
